import Mathlib

/-!
# Verification of the dod-playground simulation core

Shallow embedding of the entity/component simulation from `source/game.cpp`
(the presence-flag + systems variant) and the per-object polymorphic variant
(the component-class variant of the repository).  `float` values are modelled
as exact rationals; entity ids are natural numbers indexing the scene list.
-/

namespace Dod

/-- 2D position component (`struct PositionComponent`, game.cpp lines 21-24). -/
structure PositionComponent where
  x : ℚ
  y : ℚ
deriving DecidableEq, Repr

/-- Sprite component (`struct SpriteComponent`, game.cpp lines 28-33). -/
structure SpriteComponent where
  colorR : ℚ
  colorG : ℚ
  colorB : ℚ
  spriteIndex : Int
  scale : ℚ
deriving DecidableEq, Repr

/-- World bounds component (`struct WorldBoundsComponent`, game.cpp lines 37-40). -/
structure WorldBoundsComponent where
  xMin : ℚ
  xMax : ℚ
  yMin : ℚ
  yMax : ℚ
deriving DecidableEq, Repr

/-- Move component: velocity (`struct MoveComponent`, game.cpp lines 44-58).
The random initialization is a parameter here; the systems only read/write
`velx`/`vely`. -/
structure MoveComponent where
  velx : ℚ
  vely : ℚ
deriving DecidableEq, Repr

/-- One game object: slots for every component plus presence flags
(`struct GameObject`, game.cpp lines 65-81).  The two extra fields `hasAvoid`
and `avoidThis` carry the polymorphic variant's `AvoidComponent` presence and
`AvoidThisComponent` (with its trigger distance); the parallel-array variant
ignores them and keeps the avoidance roles in side lists instead. -/
structure GameObject where
  hasPosition : Bool := false
  hasSprite : Bool := false
  hasWorldBounds : Bool := false
  hasMove : Bool := false
  hasAvoid : Bool := false
  avoidThis : Option ℚ := none
  position : PositionComponent := ⟨0, 0⟩
  sprite : SpriteComponent := ⟨0, 0, 0, 0, 0⟩
  worldBounds : WorldBoundsComponent := ⟨0, 0, 0, 0⟩
  move : MoveComponent := ⟨0, 0⟩
deriving DecidableEq, Repr

/-- Default-valued object: the struct-of-arrays variant value-initializes all
slots of a fresh entity to zero (`Entities::AddEntity`). -/
def defaultObject : GameObject := {}

/-- `EntityID` is an index into the scene array (game.cpp line 86). -/
abbrev EntityID := Nat

/-- The scene `s_Objects`: array of game objects. -/
abbrev Scene := List GameObject

/-- Indexed read `s_Objects[id]` (out-of-range reads, undefined in C++, give
the default object). -/
def getObj (s : Scene) (id : EntityID) : GameObject :=
  s.getD id defaultObject

/-- Indexed write `s_Objects[id] = o` (no-op out of range). -/
def setObj (s : Scene) (id : EntityID) (o : GameObject) : Scene :=
  s.set id o

/-- Loop body of `MoveSystem::UpdateSystem` for one object
(game.cpp lines 120-144): Euler-integrate both axes, then the four
sequential bound checks, each negating the velocity component and clamping
the position. -/
def moveObject (bounds : WorldBoundsComponent) (deltaTime : ℚ) (go : GameObject) :
    GameObject :=
  let px0 := go.position.x + go.move.velx * deltaTime
  let py0 := go.position.y + go.move.vely * deltaTime
  let vx0 := go.move.velx
  let vy0 := go.move.vely
  let vx1 := if px0 < bounds.xMin then -vx0 else vx0
  let px1 := if px0 < bounds.xMin then bounds.xMin else px0
  let vx2 := if px1 > bounds.xMax then -vx1 else vx1
  let px2 := if px1 > bounds.xMax then bounds.xMax else px1
  let vy1 := if py0 < bounds.yMin then -vy0 else vy0
  let py1 := if py0 < bounds.yMin then bounds.yMin else py0
  let vy2 := if py1 > bounds.yMax then -vy1 else vy1
  let py2 := if py1 > bounds.yMax then bounds.yMax else py1
  { go with position := ⟨px2, py2⟩, move := ⟨vx2, vy2⟩ }

/-- Move system state (game.cpp lines 95-108): the bounds entity id and the
ids registered via `AddObjectToSystem`, in registration order. -/
structure MoveSystem where
  boundsID : EntityID
  entities : List EntityID
deriving DecidableEq, Repr

/-- `MoveSystem::UpdateSystem` (game.cpp lines 110-146).  Note the source
indexes `s_Objects[io]` with the raw loop counter `io`, not `entities[io]`:
the loop runs over indices `0 .. entities.size()-1` of the scene array. -/
def MoveSystem.UpdateSystem (sys : MoveSystem) (deltaTime : ℚ) (s : Scene) : Scene :=
  let bounds := (getObj s sys.boundsID).worldBounds
  (List.range sys.entities.length).foldl
    (fun acc io => setObj acc io (moveObject bounds deltaTime (getObj acc io))) s

/-- `AvoidanceSystem::DistanceSq` (game.cpp lines 177-182). -/
def DistanceSq (a b : PositionComponent) : ℚ :=
  let dx := a.x - b.x
  let dy := a.y - b.y
  dx * dx + dy * dy

/-- `AvoidanceSystem::ResolveCollision` (game.cpp lines 184-196): flip both
velocity components, then advance the position by the flipped velocity times
`deltaTime * 1.1`. -/
def ResolveCollision (deltaTime : ℚ) (go : GameObject) : GameObject :=
  let vx := -go.move.velx
  let vy := -go.move.vely
  { go with
    move := ⟨vx, vy⟩
    position := ⟨go.position.x + vx * deltaTime * (11/10),
                 go.position.y + vy * deltaTime * (11/10)⟩ }

/-- Inner-loop body of `AvoidanceSystem::UpdateSystem` (game.cpp lines
207-224): check the avoider `goId` against one avoid-target `(id, distance)`;
on trigger (strict `<` against the squared distance) resolve the collision and
copy the target's sprite color onto the avoider. -/
def avoidCheckOne (deltaTime : ℚ) (goId : EntityID) (s : Scene)
    (av : EntityID × ℚ) : Scene :=
  let go := getObj s goId
  let avoid := getObj s av.1
  if DistanceSq go.position avoid.position < av.2 * av.2 then
    let go := ResolveCollision deltaTime go
    let go := { go with
      sprite := { go.sprite with
        colorR := avoid.sprite.colorR
        colorG := avoid.sprite.colorG
        colorB := avoid.sprite.colorB } }
    setObj s goId go
  else s

/-- Avoidance system state (game.cpp lines 157-175): parallel lists of
trigger distances and target ids (filled by `AddAvoidThisObjectToSystem`),
and the avoider ids (filled by `AddObjectToSystem`). -/
structure AvoidanceSystem where
  avoidDistanceList : List ℚ
  avoidList : List EntityID
  objectList : List EntityID
deriving DecidableEq, Repr

/-- The parallel target arrays, paired up (the source iterates both lists by
the shared inner index `ia`). -/
def AvoidanceSystem.avoidPairs (sys : AvoidanceSystem) : List (EntityID × ℚ) :=
  sys.avoidList.zip sys.avoidDistanceList

/-- `AvoidanceSystem::UpdateSystem` (game.cpp lines 198-227): for every
avoider in registration order, check every target in registration order. -/
def AvoidanceSystem.UpdateSystem (sys : AvoidanceSystem) (deltaTime : ℚ)
    (s : Scene) : Scene :=
  sys.objectList.foldl
    (fun acc goId => sys.avoidPairs.foldl (avoidCheckOne deltaTime goId) acc) s

/-- The render record `sprite_data_t` written out for the presentation
harness (game.h). -/
structure sprite_data_t where
  posX : ℚ
  posY : ℚ
  scale : ℚ
  colR : ℚ
  colG : ℚ
  colB : ℚ
  sprite : ℚ
deriving DecidableEq, Repr

/-- Whether an object is emitted to the render stream:
`go.m_HasPosition && go.m_HasSprite` (game.cpp line 337). -/
def renderFlag (go : GameObject) : Bool :=
  go.hasPosition && go.hasSprite

/-- The record written for one object (game.cpp lines 339-347), with the
global display scale `0.05`. -/
def spriteFrom (go : GameObject) : sprite_data_t :=
  let globalScale : ℚ := 1/20
  { posX := go.position.x * globalScale
    posY := go.position.y * globalScale
    scale := go.sprite.scale * globalScale
    colR := go.sprite.colorR
    colG := go.sprite.colorG
    colB := go.sprite.colorB
    sprite := (go.sprite.spriteIndex : ℚ) }

/-- One step of the output loop of `game_update` (game.cpp lines 330-348):
if the object has Position and Sprite, write its record at `data[objectCount]`
and increment the count. -/
def emitStep (acc : Nat × List sprite_data_t) (go : GameObject) :
    Nat × List sprite_data_t :=
  if renderFlag go then (acc.1 + 1, acc.2.set acc.1 (spriteFrom go)) else acc

/-- The full output loop of `game_update`: scan the scene in index order,
writing into the caller's buffer starting at index 0; returns the record
count and the buffer. -/
def emitObjects (s : Scene) (buf : List sprite_data_t) :
    Nat × List sprite_data_t :=
  s.foldl emitStep (0, buf)

/-- Specification-level view of the emitted stream: the records of exactly
the objects carrying both Position and Sprite, in scene (= `EntityID`)
order. -/
def renderList (s : Scene) : List sprite_data_t :=
  (s.filter renderFlag).map spriteFrom

/-- Whole game state of the systems variant: the scene plus the two system
registration states (the statics `s_Objects`, `s_MoveSystem`,
`s_AvoidanceSystem` of game.cpp). -/
structure GameState where
  objects : Scene
  moveSystem : MoveSystem
  avoidanceSystem : AvoidanceSystem
deriving DecidableEq, Repr

/-- Scene after the two system updates of one `game_update` call
(game.cpp lines 326-327).  The unused `time` argument of the source is
dropped: no update reads it. -/
def updatedScene (st : GameState) (deltaTime : ℚ) : Scene :=
  st.avoidanceSystem.UpdateSystem deltaTime
    (st.moveSystem.UpdateSystem deltaTime st.objects)

/-- `game_update` of the systems variant (game.cpp lines 321-350): run Move
then Avoidance, then emit the render records into the caller's buffer. -/
def game_update (st : GameState) (deltaTime : ℚ) (buf : List sprite_data_t) :
    Nat × List sprite_data_t :=
  emitObjects (updatedScene st deltaTime) buf

/-- Game state after one frame (the scene mutation of one `game_update`;
the registration lists never change after startup). -/
def frame (st : GameState) (deltaTime : ℚ) : GameState :=
  { st with objects := updatedScene st deltaTime }

/-- Game state after `n` frames. -/
def frames (st : GameState) (deltaTime : ℚ) : Nat → GameState
  | 0 => st
  | n + 1 => frame (frames st deltaTime n) deltaTime

/-! ## The per-object polymorphic variant

The component-class variant of the repository: each object's `Update` runs
its components in the order they were added (Position and Sprite have no
update; Move integrates and reflects; Avoid checks the cached list of all
`AvoidThisComponent`s), and `game_update` updates and emits each object in
one interleaved pass over the scene. -/

/-- `FindOfType<WorldBoundsComponent>`: the bounds of the first object
carrying WorldBounds (cached by every `MoveComponent::Start`). -/
def findBounds (s : Scene) : WorldBoundsComponent :=
  ((s.find? (fun go => go.hasWorldBounds)).getD defaultObject).worldBounds

/-- `FindAllComponentsOfType<AvoidThisComponent>`: all avoid-targets with
their trigger distances, in scene order (the lazily-filled static
`AvoidComponent::avoidList`; membership is fixed after startup). -/
def polyAvoidPairs (s : Scene) : List (EntityID × ℚ) :=
  s.enum.filterMap (fun p => p.2.avoidThis.map (fun d => (p.1, d)))

/-- `GameObject::Update` of the polymorphic variant for the object at `i`:
run its Move component (if present), then its Avoid component (if present);
the Avoid check body is the same resolve + color copy as the systems
variant. -/
def polyUpdateObject (av : List (EntityID × ℚ)) (bounds : WorldBoundsComponent)
    (deltaTime : ℚ) (s : Scene) (i : EntityID) : Scene :=
  let s1 := if (getObj s i).hasMove
    then setObj s i (moveObject bounds deltaTime (getObj s i)) else s
  if (getObj s1 i).hasAvoid
    then av.foldl (avoidCheckOne deltaTime i) s1 else s1

/-- One iteration of the polymorphic `game_update` loop: update the object,
then immediately emit its record if it has Position and Sprite. -/
def polyStep (av : List (EntityID × ℚ)) (bounds : WorldBoundsComponent)
    (deltaTime : ℚ) (acc : Nat × List sprite_data_t × Scene) (i : EntityID) :
    Nat × List sprite_data_t × Scene :=
  let sc := polyUpdateObject av bounds deltaTime acc.2.2 i
  let go := getObj sc i
  if renderFlag go
    then (acc.1 + 1, acc.2.1.set acc.1 (spriteFrom go), sc)
    else (acc.1, acc.2.1, sc)

/-- `game_update` of the polymorphic variant: one pass over the scene,
updating each object and emitting its record in the same loop.  Returns the
record count, the buffer, and the post-frame scene. -/
def game_update_poly (s : Scene) (deltaTime : ℚ) (buf : List sprite_data_t) :
    Nat × List sprite_data_t × Scene :=
  (List.range s.length).foldl
    (polyStep (polyAvoidPairs s) (findBounds s) deltaTime) (0, buf, s)

/-! ## The populated store

The shape produced by the startup routine of game.cpp (lines 237-312): one
bounds entity, then `kObjectCount` regular moving/avoiding entities, then
`kAvoidCount` avoid-target entities.  The randomly drawn values are
parameters here; the flags, registrations and fixed constants follow the
source. -/

/-- `kObjectCount` (game.cpp line 7). -/
def kObjectCount : Nat := 1000000

/-- `kAvoidCount` (game.cpp line 8). -/
def kAvoidCount : Nat := 20

/-- The fixed world rectangle created at startup (game.cpp lines 245-248). -/
def initialBounds : WorldBoundsComponent := ⟨-80, 80, -50, 50⟩

/-- Randomly drawn data of one regular object. -/
structure RegularParams where
  px : ℚ
  py : ℚ
  spriteIdx : Int
  velx : ℚ
  vely : ℚ
deriving DecidableEq, Repr

/-- Randomly drawn data of one avoid-target object. -/
structure AvoidParams where
  px : ℚ
  py : ℚ
  colR : ℚ
  colG : ℚ
  colB : ℚ
  velx : ℚ
  vely : ℚ
deriving DecidableEq, Repr

/-- The bounds entity: only WorldBounds present; all other slots default. -/
def mkBoundsObject : GameObject :=
  { hasWorldBounds := true, worldBounds := initialBounds }

/-- A regular object (game.cpp lines 256-282): Position, white unit-scale
Sprite, Move; it is registered as a Move-System mover and an avoider (the
polymorphic variant's `AvoidComponent`, recorded here as `hasAvoid`). -/
def mkRegularObject (p : RegularParams) : GameObject :=
  { hasPosition := true
    hasSprite := true
    hasMove := true
    hasAvoid := true
    position := ⟨p.px, p.py⟩
    sprite := ⟨1, 1, 1, p.spriteIdx, 1⟩
    move := ⟨p.velx, p.vely⟩ }

/-- An avoid-target object (game.cpp lines 285-311): Position, Sprite with
atlas index 5 and scale 2, Move; registered as a mover and as a thing to be
avoided with trigger distance `1.3`. -/
def mkAvoidObject (p : AvoidParams) : GameObject :=
  { hasPosition := true
    hasSprite := true
    hasMove := true
    avoidThis := some (13/10)
    position := ⟨p.px, p.py⟩
    sprite := ⟨p.colR, p.colG, p.colB, 5, 2⟩
    move := ⟨p.velx, p.vely⟩ }

/-- The populated scene: bounds entity at id 0, regular entities at ids
`1 .. N`, avoid-target entities at ids `N+1 .. N+K`. -/
def initScene (regs : List RegularParams) (targs : List AvoidParams) : Scene :=
  mkBoundsObject :: (regs.map mkRegularObject ++ targs.map mkAvoidObject)

/-- The Move System after startup: bounds id 0; every regular and every
avoid-target entity registered, in creation order. -/
def initMoveSystem (nR nT : Nat) : MoveSystem :=
  ⟨0, List.range' 1 (nR + nT)⟩

/-- The Avoidance System after startup: the regular entities as avoiders,
the avoid-target entities as targets with trigger distance `1.3`. -/
def initAvoidanceSystem (nR nT : Nat) : AvoidanceSystem :=
  ⟨List.replicate nT (13/10), List.range' (nR + 1) nT, List.range' 1 nR⟩

/-- Full game state right after startup. -/
def initState (regs : List RegularParams) (targs : List AvoidParams) : GameState :=
  ⟨initScene regs targs,
   initMoveSystem regs.length targs.length,
   initAvoidanceSystem regs.length targs.length⟩

/-! ## Helper for buffer reasoning -/

/-- Write the records `rs` into `buf` at consecutive indices starting at
`i` (how the output loop touches the caller's buffer). -/
def writeList (buf : List sprite_data_t) (i : Nat) :
    List sprite_data_t → List sprite_data_t
  | [] => buf
  | r :: rs => writeList (buf.set i r) (i + 1) rs

/-! ## Concrete instances used to settle the claims -/

/-- An all-zero render record (initial content of the caller's buffer in the
concrete runs below). -/
def zeroRecord : sprite_data_t := ⟨0, 0, 0, 0, 0, 0, 0⟩

/-- Store exhibiting the Move System indexing slip: the bounds entity at
id 0 (not registered) with nonzero data in its unused Move slot, and two
registered movers at ids 1 and 2. -/
def sceneC1 : Scene :=
  [{ hasWorldBounds := true, worldBounds := initialBounds, move := ⟨1, 0⟩ },
   { hasPosition := true, hasMove := true, position := ⟨0, 0⟩, move := ⟨1, 0⟩ },
   { hasPosition := true, hasMove := true, position := ⟨0, 0⟩, move := ⟨1, 0⟩ }]

/-- Move System with movers 1 and 2 registered (id 0 is the bounds entity). -/
def msC1 : MoveSystem := ⟨0, [1, 2]⟩

/-- Store for comparing the two `game_update` variants: bounds entity, one
regular avoider at the origin, one moving avoid-target far away. -/
def sceneC3 : Scene :=
  [mkBoundsObject,
   mkRegularObject ⟨0, 0, 0, 1, 0⟩,
   mkAvoidObject ⟨10, 10, 1/2, 1/2, 1/2, 1, 1⟩]

/-- Systems registration matching `sceneC3`. -/
def stateC3 : GameState := initState [⟨0, 0, 0, 1, 0⟩] [⟨10, 10, 1/2, 1/2, 1/2, 1, 1⟩]

/-- A three-slot output buffer. -/
def bufC3 : List sprite_data_t := List.replicate 3 zeroRecord

/-- Store with one motionless avoider sitting on top of two zero-velocity
avoid-targets of different colors. -/
def sceneC5 : Scene :=
  [{ hasPosition := true, hasSprite := true, hasMove := true, hasAvoid := true,
     position := ⟨0, 0⟩, sprite := ⟨1, 1, 1, 0, 1⟩, move := ⟨0, 0⟩ },
   { hasPosition := true, hasSprite := true, position := ⟨0, 0⟩,
     sprite := ⟨1/4, 0, 0, 5, 2⟩, avoidThis := some 1 },
   { hasPosition := true, hasSprite := true, position := ⟨0, 0⟩,
     sprite := ⟨0, 1/4, 0, 5, 2⟩, avoidThis := some 1 }]

/-- Store for the end-to-end avoidance scenario: avoider at the origin with
velocity `(1,0)`, target at `(0.5, 0)` with trigger distance `1`. -/
def sceneC6 : Scene :=
  [{ hasPosition := true, hasSprite := true, hasMove := true, hasAvoid := true,
     position := ⟨0, 0⟩, sprite := ⟨1, 1, 1, 0, 1⟩, move := ⟨1, 0⟩ },
   { hasPosition := true, hasSprite := true, position := ⟨1/2, 0⟩,
     sprite := ⟨3/10, 2/5, 1/2, 5, 2⟩, avoidThis := some 1 }]

/-- Avoidance System registration matching `sceneC6`: entity 0 avoids
entity 1, trigger distance `1`. -/
def avsC6 : AvoidanceSystem := ⟨[1], [1], [0]⟩

/-- A mover whose unclamped step from `x = 79` with velocity `-1000` lands
far past the opposite world bound. -/
def goC7 : GameObject :=
  { hasPosition := true, hasMove := true, position := ⟨79, 0⟩, move := ⟨-1000, 0⟩ }

/-- The per-object data that no per-frame update ever writes: presence
flags, the avoidance marker and trigger distance, sprite atlas index and
scale, and the world bounds. -/
def objShape (go : GameObject) :
    Bool × Bool × Bool × Bool × Bool × Option ℚ × Int × ℚ × WorldBoundsComponent :=
  (go.hasPosition, go.hasSprite, go.hasWorldBounds, go.hasMove, go.hasAvoid,
   go.avoidThis, go.sprite.spriteIndex, go.sprite.scale, go.worldBounds)

/-- The per-axis speeds of an object. -/
def absVel (go : GameObject) : ℚ × ℚ :=
  (|go.move.velx|, |go.move.vely|)

/-- Two scenes agree, entity by entity, on the value of `φ` (and have the
same length). -/
def scenePointwise {γ : Type} (φ : GameObject → γ) (t s : Scene) : Prop :=
  t.length = s.length ∧ ∀ id, φ (getObj t id) = φ (getObj s id)

/-- The trigger test as the flags variant writes it (game.cpp line 214): the
raw trigger distance is stored and squared at every comparison. -/
def triggerRaw (my avoidpos : PositionComponent) (avDistance : ℚ) : Bool :=
  decide (DistanceSq my avoidpos < avDistance * avDistance)

/-- What the struct-of-arrays variant stores at registration:
`distance * distance`. -/
def storedSq (distance : ℚ) : ℚ :=
  distance * distance

/-- The trigger test of the struct-of-arrays variant: compare against the
stored squared distance. -/
def triggerStored (my avoidpos : PositionComponent) (stored : ℚ) : Bool :=
  decide (DistanceSq my avoidpos < stored)

/-! ## Helper lemmas -/

theorem length_setObj (s : Scene) (i : Nat) (o : GameObject) :
    (setObj s i o).length = s.length :=
  List.length_set ..

theorem getObj_setObj_self (s : Scene) (i : Nat) (o : GameObject)
    (h : i < s.length) : getObj (setObj s i o) i = o := by
  simp [getObj, setObj, List.getElem?_set_self h]

theorem getObj_setObj_ne (s : Scene) (i j : Nat) (o : GameObject)
    (h : j ≠ i) : getObj (setObj s i o) j = getObj s j := by
  simp [getObj, setObj, List.getElem?_set_ne (fun hh => h hh.symm)]

theorem getObj_cons (a : GameObject) (s : Scene) (n : Nat) :
    getObj (a :: s) n = if n = 0 then a else getObj s (n - 1) := by
  cases n with
  | zero => rfl
  | succ m => simp [getObj]

theorem setObj_cons (a : GameObject) (s : Scene) (n : Nat) (o : GameObject) :
    setObj (a :: s) n o = if n = 0 then o :: s else a :: setObj s (n - 1) o := by
  cases n with
  | zero => rfl
  | succ m => simp [setObj]

theorem foldl_inv {σ α : Type*} {P : σ → Prop} (f : σ → α → σ) (l : List α)
    (a : σ) (h0 : P a) (hf : ∀ t b, b ∈ l → P t → P (f t b)) :
    P (l.foldl f a) := by
  induction l generalizing a with
  | nil => exact h0
  | cons x xs ih =>
    exact ih (f a x) (hf a x (List.mem_cons_self x xs) h0)
      (fun t b hb => hf t b (List.mem_cons_of_mem x hb))

theorem scenePointwise_refl {γ : Type} (φ : GameObject → γ) (s : Scene) :
    scenePointwise φ s s :=
  ⟨rfl, fun _ => rfl⟩

theorem scenePointwise_trans {γ : Type} (φ : GameObject → γ) {u t s : Scene}
    (h1 : scenePointwise φ u t) (h2 : scenePointwise φ t s) :
    scenePointwise φ u s :=
  ⟨h1.1.trans h2.1, fun id => (h1.2 id).trans (h2.2 id)⟩

theorem scenePointwise_set {γ : Type} (φ : GameObject → γ) (s : Scene)
    (i : Nat) (go' : GameObject) (h : φ go' = φ (getObj s i)) :
    scenePointwise φ (setObj s i go') s := by
  refine ⟨length_setObj .., fun id => ?_⟩
  by_cases hid : id = i
  · subst hid
    by_cases hlt : id < s.length
    · rw [getObj_setObj_self s id go' hlt, h]
    · rw [setObj, List.set_eq_of_length_le (Nat.le_of_not_lt hlt)]
  · rw [getObj_setObj_ne s i id go' hid]

theorem scenePointwise_foldl {γ : Type} {α : Type*} (φ : GameObject → γ)
    (f : Scene → α → Scene) (l : List α) (s : Scene)
    (hf : ∀ t a, a ∈ l → scenePointwise φ (f t a) t) :
    scenePointwise φ (l.foldl f s) s :=
  foldl_inv (P := fun t => scenePointwise φ t s) f l s (scenePointwise_refl φ s)
    (fun t a ha ht => scenePointwise_trans φ (hf t a ha) ht)

theorem objShape_moveObject (bounds : WorldBoundsComponent) (dt : ℚ)
    (go : GameObject) : objShape (moveObject bounds dt go) = objShape go :=
  rfl

theorem objShape_resolve (dt : ℚ) (go : GameObject) :
    objShape (ResolveCollision dt go) = objShape go :=
  rfl

theorem absVel_moveObject (bounds : WorldBoundsComponent) (dt : ℚ)
    (go : GameObject) : absVel (moveObject bounds dt go) = absVel go := by
  simp only [absVel, moveObject]
  split_ifs <;> simp [abs_neg]

theorem absVel_resolve (dt : ℚ) (go : GameObject) :
    absVel (ResolveCollision dt go) = absVel go := by
  simp [absVel, ResolveCollision, abs_neg]

theorem sceneShape_avoidCheckOne (dt : ℚ) (goId : EntityID) (s : Scene)
    (av : EntityID × ℚ) :
    scenePointwise objShape (avoidCheckOne dt goId s av) s := by
  simp only [avoidCheckOne]
  split
  · exact scenePointwise_set _ _ _ _ rfl
  · exact scenePointwise_refl _ _

theorem absVel_avoidCheckOne (dt : ℚ) (goId : EntityID) (s : Scene)
    (av : EntityID × ℚ) :
    scenePointwise absVel (avoidCheckOne dt goId s av) s := by
  simp only [avoidCheckOne]
  split
  · exact scenePointwise_set _ _ _ _ (absVel_resolve dt (getObj s goId))
  · exact scenePointwise_refl _ _

theorem sceneShape_moveUpdate (sys : MoveSystem) (dt : ℚ) (s : Scene) :
    scenePointwise objShape (sys.UpdateSystem dt s) s :=
  scenePointwise_foldl _ _ _ _ (fun t io _ =>
    scenePointwise_set _ _ _ _ (objShape_moveObject _ dt (getObj t io)))

theorem absVel_moveUpdate (sys : MoveSystem) (dt : ℚ) (s : Scene) :
    scenePointwise absVel (sys.UpdateSystem dt s) s :=
  scenePointwise_foldl _ _ _ _ (fun t io _ =>
    scenePointwise_set _ _ _ _ (absVel_moveObject _ dt (getObj t io)))

theorem sceneShape_avoidUpdate (sys : AvoidanceSystem) (dt : ℚ) (s : Scene) :
    scenePointwise objShape (sys.UpdateSystem dt s) s :=
  scenePointwise_foldl _ _ _ _ (fun _t goId _ =>
    scenePointwise_foldl _ _ _ _ (fun u av _ => sceneShape_avoidCheckOne dt goId u av))

theorem absVel_avoidUpdate (sys : AvoidanceSystem) (dt : ℚ) (s : Scene) :
    scenePointwise absVel (sys.UpdateSystem dt s) s :=
  scenePointwise_foldl _ _ _ _ (fun _t goId _ =>
    scenePointwise_foldl _ _ _ _ (fun u av _ => absVel_avoidCheckOne dt goId u av))

theorem sceneShape_updatedScene (st : GameState) (dt : ℚ) :
    scenePointwise objShape (updatedScene st dt) st.objects :=
  scenePointwise_trans _ (sceneShape_avoidUpdate ..) (sceneShape_moveUpdate ..)

theorem absVel_updatedScene (st : GameState) (dt : ℚ) :
    scenePointwise absVel (updatedScene st dt) st.objects :=
  scenePointwise_trans _ (absVel_avoidUpdate ..) (absVel_moveUpdate ..)

theorem sceneShape_polyUpdateObject (av : List (EntityID × ℚ))
    (bounds : WorldBoundsComponent) (dt : ℚ) (s : Scene) (i : EntityID) :
    scenePointwise objShape (polyUpdateObject av bounds dt s i) s := by
  simp only [polyUpdateObject]
  set s1 := if (getObj s i).hasMove = true
    then setObj s i (moveObject bounds dt (getObj s i)) else s with hs1
  have h1 : scenePointwise objShape s1 s := by
    rw [hs1]
    split
    · exact scenePointwise_set _ _ _ _ (objShape_moveObject _ dt (getObj s i))
    · exact scenePointwise_refl _ _
  refine scenePointwise_trans _ ?_ h1
  split
  · exact scenePointwise_foldl _ _ _ _
      (fun u a _ => sceneShape_avoidCheckOne dt i u a)
  · exact scenePointwise_refl _ _

theorem renderFlag_eq_of_objShape {go go' : GameObject}
    (h : objShape go = objShape go') : renderFlag go = renderFlag go' := by
  have h1 : go.hasPosition = go'.hasPosition := congrArg (fun t => t.1) h
  have h2 : go.hasSprite = go'.hasSprite := congrArg (fun t => t.2.1) h
  simp [renderFlag, h1, h2]

theorem countP_eq_of_pointwise (p : GameObject → Bool) {t s : Scene}
    (hl : t.length = s.length) (h : ∀ id, p (getObj t id) = p (getObj s id)) :
    t.countP p = s.countP p := by
  induction s generalizing t with
  | nil =>
    rw [List.length_nil, List.length_eq_zero] at hl
    subst hl; rfl
  | cons a s ih =>
    cases t with
    | nil => simp at hl
    | cons b t =>
      have h0 : p b = p a := h 0
      have hrest : ∀ id, p (getObj t id) = p (getObj s id) := fun id => h (id + 1)
      rw [List.countP_cons, List.countP_cons, h0, ih (by simpa using hl) hrest]

theorem countP_renderFlag_of_shape {t s : Scene}
    (h : scenePointwise objShape t s) :
    t.countP renderFlag = s.countP renderFlag :=
  countP_eq_of_pointwise renderFlag h.1
    (fun id => renderFlag_eq_of_objShape (h.2 id))

theorem length_writeList (rs : List sprite_data_t) (buf : List sprite_data_t)
    (i : Nat) : (writeList buf i rs).length = buf.length := by
  induction rs generalizing buf i with
  | nil => rfl
  | cons r rs ih => rw [writeList, ih, List.length_set]

theorem writeList_cons_succ (rs : List sprite_data_t) (x : sprite_data_t)
    (bs : List sprite_data_t) (i : Nat) :
    writeList (x :: bs) (i + 1) rs = x :: writeList bs i rs := by
  induction rs generalizing bs i with
  | nil => rfl
  | cons r rs ih => rw [writeList, writeList, List.set_cons_succ, ih]

theorem writeList_zero (rs : List sprite_data_t) (buf : List sprite_data_t)
    (h : rs.length ≤ buf.length) :
    writeList buf 0 rs = rs ++ buf.drop rs.length := by
  induction rs generalizing buf with
  | nil => simp [writeList]
  | cons r rs ih =>
    cases buf with
    | nil => simp at h
    | cons b bs =>
      rw [writeList, List.set_cons_zero, writeList_cons_succ,
        ih bs (by simpa using h)]
      rfl

theorem writeList_eq (rs : List sprite_data_t) (i : Nat)
    (buf : List sprite_data_t) (h : i + rs.length ≤ buf.length) :
    writeList buf i rs = buf.take i ++ rs ++ buf.drop (i + rs.length) := by
  induction i generalizing buf with
  | zero => simpa using writeList_zero rs buf (by omega)
  | succ i ih =>
    cases buf with
    | nil => simp at h
    | cons b bs =>
      rw [writeList_cons_succ, ih bs (by simp at h; omega)]
      have hidx : i + 1 + rs.length = (i + rs.length) + 1 := by omega
      rw [hidx]
      rfl

theorem emit_foldl (s : Scene) (c : Nat) (buf : List sprite_data_t) :
    s.foldl emitStep (c, buf)
      = (c + s.countP renderFlag, writeList buf c (renderList s)) := by
  induction s generalizing c buf with
  | nil => simp [renderList, writeList]
  | cons go s ih =>
    rw [List.foldl_cons]
    by_cases h : renderFlag go
    · have hstep : emitStep (c, buf) go = (c + 1, buf.set c (spriteFrom go)) := by
        simp [emitStep, h]
      have h1 : renderList (go :: s) = spriteFrom go :: renderList s := by
        simp [renderList, List.filter_cons, h]
      rw [hstep, ih, h1, List.countP_cons_of_pos _ _ h, writeList]
      have harith : c + 1 + s.countP renderFlag = c + (s.countP renderFlag + 1) := by
        omega
      rw [harith]
    · have hstep : emitStep (c, buf) go = (c, buf) := by
        simp [emitStep, h]
      have h1 : renderList (go :: s) = renderList s := by
        simp [renderList, List.filter_cons, h]
      rw [hstep, ih, h1, List.countP_cons_of_neg _ _ h]

theorem emitObjects_eq (s : Scene) (buf : List sprite_data_t) :
    emitObjects s buf = (s.countP renderFlag, writeList buf 0 (renderList s)) := by
  rw [emitObjects, emit_foldl]
  simp

theorem length_renderList (s : Scene) :
    (renderList s).length = s.countP renderFlag := by
  simp [renderList, List.countP_eq_length_filter]

theorem polyStep_fst (av : List (EntityID × ℚ)) (bounds : WorldBoundsComponent)
    (dt : ℚ) (acc : Nat × List sprite_data_t × Scene) (i : EntityID) :
    (polyStep av bounds dt acc i).1
      = acc.1 + (if renderFlag (getObj (polyUpdateObject av bounds dt acc.2.2 i) i)
          then 1 else 0) := by
  simp only [polyStep]
  split <;> simp_all

theorem polyStep_scene (av : List (EntityID × ℚ)) (bounds : WorldBoundsComponent)
    (dt : ℚ) (acc : Nat × List sprite_data_t × Scene) (i : EntityID) :
    (polyStep av bounds dt acc i).2.2 = polyUpdateObject av bounds dt acc.2.2 i := by
  simp only [polyStep]
  split <;> rfl

theorem poly_foldl_spec (av : List (EntityID × ℚ)) (bounds : WorldBoundsComponent)
    (dt : ℚ) (s : Scene) (idxs : List Nat) :
    ∀ acc : Nat × List sprite_data_t × Scene,
      scenePointwise objShape acc.2.2 s →
      (idxs.foldl (polyStep av bounds dt) acc).1
          = acc.1 + idxs.countP (fun i => renderFlag (getObj s i))
        ∧ scenePointwise objShape (idxs.foldl (polyStep av bounds dt) acc).2.2 s := by
  induction idxs with
  | nil => exact fun acc h => ⟨by simp, h⟩
  | cons i idxs ih =>
    intro acc h
    rw [List.foldl_cons]
    have hsc : (polyStep av bounds dt acc i).2.2
        = polyUpdateObject av bounds dt acc.2.2 i := polyStep_scene ..
    have hinv : scenePointwise objShape (polyStep av bounds dt acc i).2.2 s := by
      rw [hsc]
      exact scenePointwise_trans _ (sceneShape_polyUpdateObject ..) h
    obtain ⟨h1, h2⟩ := ih (polyStep av bounds dt acc i) hinv
    refine ⟨?_, h2⟩
    have hflag : renderFlag (getObj (polyUpdateObject av bounds dt acc.2.2 i) i)
        = renderFlag (getObj s i) := by
      rw [hsc] at hinv
      exact renderFlag_eq_of_objShape (hinv.2 i)
    rw [h1, polyStep_fst, List.countP_cons, hflag]
    split <;> omega

theorem countP_range_getObj (s : Scene) :
    (List.range s.length).countP (fun i => renderFlag (getObj s i))
      = s.countP renderFlag := by
  induction s with
  | nil => rfl
  | cons a s ih =>
    rw [List.length_cons, List.range_succ_eq_map, List.countP_cons,
      List.countP_map]
    have hcomp : ((fun i => renderFlag (getObj (a :: s) i)) ∘ Nat.succ)
        = (fun i => renderFlag (getObj s i)) := rfl
    rw [hcomp, ih, List.countP_cons]
    rfl

theorem game_update_fst (st : GameState) (dt : ℚ) (buf : List sprite_data_t) :
    (game_update st dt buf).1 = st.objects.countP renderFlag := by
  rw [game_update, emitObjects_eq]
  exact countP_renderFlag_of_shape (sceneShape_updatedScene st dt)

theorem game_update_poly_fst (s : Scene) (dt : ℚ) (buf : List sprite_data_t) :
    (game_update_poly s dt buf).1 = s.countP renderFlag := by
  rw [game_update_poly]
  have h := (poly_foldl_spec (polyAvoidPairs s) (findBounds s) dt s
    (List.range s.length) (0, buf, s) (scenePointwise_refl _ s)).1
  rw [h, countP_range_getObj]
  simp

theorem getObj_avoidCheckOne_ne (dt : ℚ) (goId : EntityID) (s : Scene)
    (av : EntityID × ℚ) (id : EntityID) (h : id ≠ goId) :
    getObj (avoidCheckOne dt goId s av) id = getObj s id := by
  simp only [avoidCheckOne]
  split
  · exact getObj_setObj_ne _ _ _ _ h
  · rfl

theorem avoidUpdate_not_avoider (sys : AvoidanceSystem) (dt : ℚ) (s : Scene)
    (id : EntityID) (h : id ∉ sys.objectList) :
    getObj (sys.UpdateSystem dt s) id = getObj s id := by
  refine foldl_inv (P := fun t => getObj t id = getObj s id) _ _ _ rfl ?_
  intro t goId hm ht
  have hne : id ≠ goId := fun he => h (he ▸ hm)
  refine foldl_inv (P := fun u => getObj u id = getObj s id) _ _ _ ht ?_
  intro u av _ hu
  rw [getObj_avoidCheckOne_ne dt goId u av id hne, hu]

theorem sceneShape_frames (st : GameState) (dt : ℚ) (n : Nat) :
    scenePointwise objShape (frames st dt n).objects st.objects := by
  induction n with
  | zero => exact scenePointwise_refl _ _
  | succ n ih =>
    exact scenePointwise_trans _ (sceneShape_updatedScene (frames st dt n) dt) ih

theorem absVel_frames (st : GameState) (dt : ℚ) (n : Nat) :
    scenePointwise absVel (frames st dt n).objects st.objects := by
  induction n with
  | zero => exact scenePointwise_refl _ _
  | succ n ih =>
    exact scenePointwise_trans _ (absVel_updatedScene (frames st dt n) dt) ih

theorem countP_initScene (regs : List RegularParams) (targs : List AvoidParams) :
    (initScene regs targs).countP renderFlag = regs.length + targs.length := by
  have hreg : ∀ p : RegularParams, renderFlag (mkRegularObject p) = true := fun _ => rfl
  have htarg : ∀ p : AvoidParams, renderFlag (mkAvoidObject p) = true := fun _ => rfl
  have hb : renderFlag mkBoundsObject = false := rfl
  rw [initScene, List.countP_cons_of_neg _ _ (by rw [hb]; exact Bool.false_ne_true),
    List.countP_append, List.countP_map, List.countP_map]
  rw [(List.countP_eq_length (p := renderFlag ∘ mkRegularObject)).mpr (fun a _ => hreg a),
    (List.countP_eq_length (p := renderFlag ∘ mkAvoidObject)).mpr (fun a _ => htarg a)]

theorem renderList_enumFrom (s : Scene) (n : Nat) :
    ((s.enumFrom n).filter (fun p => renderFlag p.2)).map (fun p => spriteFrom p.2)
      = renderList s := by
  induction s generalizing n with
  | nil => rfl
  | cons a s ih =>
    rw [List.enumFrom_cons, List.filter_cons]
    by_cases h : renderFlag a
    · have hc : (fun p : Nat × GameObject => renderFlag p.2) (n, a) = true := h
      rw [if_pos hc, List.map_cons, ih]
      have h2 : renderList (a :: s) = spriteFrom a :: renderList s := by
        simp only [renderList, List.filter_cons]
        rw [if_pos h, List.map_cons]
      rw [h2]
    · have hc : ¬(fun p : Nat × GameObject => renderFlag p.2) (n, a) = true := h
      rw [if_neg hc, ih]
      have h2 : renderList (a :: s) = renderList s := by
        simp only [renderList, List.filter_cons]
        rw [if_neg h]
      rw [h2]

/-! ## The claims -/

/-- Claim C1.  The claim says one Move System update advances exactly the
registered entities and leaves unregistered ones untouched.  The code indexes
the scene by the raw loop counter instead of the registration list, so on
this store the unregistered bounds entity (id 0) is mutated while the
registered entity 2 is left exactly as it was, even though its claimed new
position `old + velocity*dt` is different. -/
theorem c1_move_system_ignores_registration :
    (2 : EntityID) ∈ msC1.entities ∧ (0 : EntityID) ∉ msC1.entities ∧
    MoveSystem.UpdateSystem msC1 1 sceneC1
      = [{ hasWorldBounds := true, worldBounds := initialBounds,
           position := ⟨1, 0⟩, move := ⟨1, 0⟩ },
         { hasPosition := true, hasMove := true, position := ⟨1, 0⟩, move := ⟨1, 0⟩ },
         { hasPosition := true, hasMove := true, position := ⟨0, 0⟩, move := ⟨1, 0⟩ }] ∧
    getObj (MoveSystem.UpdateSystem msC1 1 sceneC1) 2 = getObj sceneC1 2 ∧
    (getObj sceneC1 2).position.x + (getObj sceneC1 2).move.velx * 1 = 1 ∧
    getObj (MoveSystem.UpdateSystem msC1 1 sceneC1) 0 ≠ getObj sceneC1 0 := by
  have hrun : MoveSystem.UpdateSystem msC1 1 sceneC1
      = [{ hasWorldBounds := true, worldBounds := initialBounds,
           position := ⟨1, 0⟩, move := ⟨1, 0⟩ },
         { hasPosition := true, hasMove := true, position := ⟨1, 0⟩, move := ⟨1, 0⟩ },
         { hasPosition := true, hasMove := true, position := ⟨0, 0⟩, move := ⟨1, 0⟩ }] := by
    norm_num [MoveSystem.UpdateSystem, msC1, sceneC1, moveObject, initialBounds,
      getObj_cons, setObj_cons, List.length, List.range_succ, List.range_zero,
      List.foldl_cons, List.foldl_nil]
  refine ⟨by decide, by decide, hrun, ?_, ?_, ?_⟩
  · rw [hrun]
    norm_num [getObj_cons, sceneC1, initialBounds]
  · norm_num [sceneC1, getObj_cons]
  · rw [hrun]
    norm_num [getObj_cons, sceneC1, initialBounds]

/-- Claim C2.  The output loop returns one record per Position+Sprite entity;
the stream is exactly the filtered scene in ascending `EntityID` order; the
records are written contiguously from index 0 of the caller's buffer; and on
a store populated with `N` regular, `K` avoid-target and 1 bounds entity the
returned count equals `N + K` on every frame. -/
theorem c2_render_stream (s : Scene) (buf : List sprite_data_t)
    (regs : List RegularParams) (targs : List AvoidParams) (dt : ℚ) (n : Nat)
    (buf2 : List sprite_data_t) (hcap : s.length ≤ buf.length) :
    (emitObjects s buf).1 = (renderList s).length ∧
    renderList s
      = (s.enum.filter (fun p => renderFlag p.2)).map (fun p => spriteFrom p.2) ∧
    (emitObjects s buf).2 = renderList s ++ buf.drop (renderList s).length ∧
    (game_update (frames (initState regs targs) dt n) dt buf2).1
      = regs.length + targs.length := by
  have hlen : (renderList s).length ≤ buf.length :=
    le_trans (by rw [length_renderList]; exact List.countP_le_length _) hcap
  refine ⟨?_, (renderList_enumFrom s 0).symm, ?_, ?_⟩
  · rw [emitObjects_eq, length_renderList]
  · rw [emitObjects_eq]
    have := writeList_eq (renderList s) 0 buf (by omega)
    rw [this]
    simp
  · rw [game_update_fst]
    have hshape := sceneShape_frames (initState regs targs) dt n
    rw [countP_renderFlag_of_shape hshape]
    exact countP_initScene regs targs

/-- Witness for C2: concrete populated store with one regular and one
avoid-target entity; after one frame the second frame's `game_update`
returns 2 records. -/
theorem c2_render_stream_witness :
    sceneC3.length ≤ bufC3.length ∧
    (game_update
      (frames (initState [⟨0, 0, 0, 1, 0⟩] [⟨10, 10, 1/2, 1/2, 1/2, 1, 1⟩]) 1 1)
      1 bufC3).1 = 2 :=
  ⟨by decide, by
    have h := (c2_render_stream sceneC3 bufC3 [⟨0, 0, 0, 1, 0⟩]
      [⟨10, 10, 1/2, 1/2, 1/2, 1, 1⟩] 1 1 bufC3 (by decide)).2.2.2
    simpa using h⟩

/-- Claim C3, counterexample.  The systems variant and the per-object
polymorphic variant started on the identical store contents produce different
render streams on the very first frame: the polymorphic variant moves the
avoid-target entity, while the systems variant's move loop (indexing by the
raw loop counter) never reaches it. -/
theorem c3_variants_not_equivalent :
    (game_update stateC3 1 bufC3).2 ≠ (game_update_poly sceneC3 1 bufC3).2.1 := by
  have h1 : (game_update stateC3 1 bufC3).2
      = [⟨1/20, 0, 1/20, 1, 1, 1, 0⟩,
         ⟨1/2, 1/2, 1/10, 1/2, 1/2, 1/2, 5⟩, zeroRecord] := by
    norm_num [game_update, updatedScene, stateC3, initState, initScene, initMoveSystem,
      initAvoidanceSystem, mkBoundsObject, mkRegularObject, mkAvoidObject, initialBounds,
      MoveSystem.UpdateSystem, moveObject, AvoidanceSystem.UpdateSystem,
      AvoidanceSystem.avoidPairs, avoidCheckOne, ResolveCollision, DistanceSq,
      emitObjects, emitStep, renderFlag, spriteFrom, bufC3, zeroRecord,
      List.map, List.length, List.range', List.replicate, List.zip, List.zipWith,
      List.range_succ, List.range_zero, List.foldl_cons, List.foldl_nil,
      getObj_cons, setObj_cons, List.cons_append, List.nil_append]
  have h2 : (game_update_poly sceneC3 1 bufC3).2.1
      = [⟨1/20, 0, 1/20, 1, 1, 1, 0⟩,
         ⟨11/20, 11/20, 1/10, 1/2, 1/2, 1/2, 5⟩, zeroRecord] := by
    norm_num [game_update_poly, polyStep, polyUpdateObject, polyAvoidPairs, findBounds,
      sceneC3, mkBoundsObject, mkRegularObject, mkAvoidObject, initialBounds,
      moveObject, avoidCheckOne, ResolveCollision, DistanceSq,
      renderFlag, spriteFrom, bufC3, zeroRecord,
      List.enum, List.enumFrom, List.filterMap, List.find?, List.map, List.length,
      List.replicate, List.range_succ, List.range_zero, List.foldl_cons, List.foldl_nil,
      getObj_cons, setObj_cons, List.set_cons_zero, List.set_cons_succ,
      Option.map, Option.getD]
  rw [h1, h2]
  norm_num [zeroRecord]

/-- Claim C3, amended.  What the two variants do agree on, for any store and
any registration lists: the returned render-record count is the same (both
count exactly the entities carrying Position and Sprite, whose presence no
update changes). -/
theorem c3_variant_record_counts_agree (s : Scene) (ms : MoveSystem)
    (avs : AvoidanceSystem) (dt : ℚ) (buf buf2 : List sprite_data_t) :
    (game_update ⟨s, ms, avs⟩ dt buf).1 = (game_update_poly s dt buf2).1 := by
  rw [game_update_fst, game_update_poly_fst]

/-- Claim C4.  The avoidance trigger is the strict comparison of the squared
Euclidean distance against the squared trigger distance: the raw-distance
form and the stored-squared form are the same test, a pair exactly at the
trigger distance does not trigger, and the avoidance check leaves the store
unchanged there. -/
theorem c4_strict_squared_distance_trigger (my avoidpos : PositionComponent)
    (d : ℚ) (dt : ℚ) (goId : EntityID) (s : Scene) (avId : EntityID) :
    (triggerRaw my avoidpos d = true ↔ DistanceSq my avoidpos < d * d) ∧
    triggerRaw my avoidpos d = triggerStored my avoidpos (storedSq d) ∧
    (DistanceSq my avoidpos = d * d → triggerRaw my avoidpos d = false) ∧
    (DistanceSq (getObj s goId).position (getObj s avId).position = d * d →
      avoidCheckOne dt goId s (avId, d) = s) := by
  refine ⟨by simp [triggerRaw], rfl, ?_, ?_⟩
  · intro h
    simp [triggerRaw, h]
  · intro h
    have hnot : ¬ DistanceSq (getObj s goId).position (getObj s avId).position
        < d * d := by
      rw [h]
      exact lt_irrefl _
    simp only [avoidCheckOne]
    rw [if_neg hnot]

/-- Witness for C4: two positions exactly one unit apart with trigger
distance 1 do not trigger. -/
theorem c4_strict_squared_distance_trigger_witness :
    DistanceSq ⟨0, 0⟩ ⟨1, 0⟩ = 1 * 1 ∧ triggerRaw ⟨0, 0⟩ ⟨1, 0⟩ 1 = false :=
  ⟨by norm_num [DistanceSq],
   (c4_strict_squared_distance_trigger ⟨0, 0⟩ ⟨1, 0⟩ 1 1 0 sceneC6 1).2.2.1
     (by norm_num [DistanceSq])⟩

/-- Claim C5.  Within one Avoidance System update an avoider is checked
against every target in registration order with no short-circuit: the inner
loop is a sequential fold, a single-avoider system is exactly that fold, with
two targets the two resolutions compose, and when both trigger, the final
avoider color is the color of the target checked last. -/
theorem c5_sequential_triggers (dt : ℚ) (s : Scene) (goId : EntityID)
    (t1 t2 : EntityID × ℚ) (ts : List (EntityID × ℚ))
    (hlen : goId < s.length)
    (h1 : DistanceSq (getObj s goId).position (getObj s t1.1).position
        < t1.2 * t1.2)
    (h2 : DistanceSq (getObj (avoidCheckOne dt goId s t1) goId).position
        (getObj (avoidCheckOne dt goId s t1) t2.1).position < t2.2 * t2.2)
    (hne : t2.1 ≠ goId) :
    ((t1 :: ts).foldl (avoidCheckOne dt goId) s
        = ts.foldl (avoidCheckOne dt goId) (avoidCheckOne dt goId s t1)) ∧
    AvoidanceSystem.UpdateSystem ⟨[t1.2, t2.2], [t1.1, t2.1], [goId]⟩ dt s
        = [t1, t2].foldl (avoidCheckOne dt goId) s ∧
    [t1, t2].foldl (avoidCheckOne dt goId) s
        = avoidCheckOne dt goId (avoidCheckOne dt goId s t1) t2 ∧
    ((getObj ([t1, t2].foldl (avoidCheckOne dt goId) s) goId).sprite.colorR,
     (getObj ([t1, t2].foldl (avoidCheckOne dt goId) s) goId).sprite.colorG,
     (getObj ([t1, t2].foldl (avoidCheckOne dt goId) s) goId).sprite.colorB)
      = ((getObj s t2.1).sprite.colorR, (getObj s t2.1).sprite.colorG,
         (getObj s t2.1).sprite.colorB) := by
  refine ⟨rfl, rfl, rfl, ?_⟩
  show ((getObj (avoidCheckOne dt goId (avoidCheckOne dt goId s t1) t2) goId).sprite.colorR,
     (getObj (avoidCheckOne dt goId (avoidCheckOne dt goId s t1) t2) goId).sprite.colorG,
     (getObj (avoidCheckOne dt goId (avoidCheckOne dt goId s t1) t2) goId).sprite.colorB)
      = ((getObj s t2.1).sprite.colorR, (getObj s t2.1).sprite.colorG,
         (getObj s t2.1).sprite.colorB)
  set s1 := avoidCheckOne dt goId s t1 with hs1
  have hgo : goId < s1.length := by
    rw [hs1, (sceneShape_avoidCheckOne dt goId s t1).1]
    exact hlen
  have htarget : getObj s1 t2.1 = getObj s t2.1 := by
    rw [hs1]
    exact getObj_avoidCheckOne_ne dt goId s t1 t2.1 hne
  have hstep : avoidCheckOne dt goId s1 t2 = setObj s1 goId
      { ResolveCollision dt (getObj s1 goId) with
        sprite := { (ResolveCollision dt (getObj s1 goId)).sprite with
          colorR := (getObj s1 t2.1).sprite.colorR
          colorG := (getObj s1 t2.1).sprite.colorG
          colorB := (getObj s1 t2.1).sprite.colorB } } := by
    simp only [avoidCheckOne]
    rw [if_pos h2]
  rw [hstep, getObj_setObj_self _ _ _ hgo, htarget]

/-- Witness for C5: a motionless avoider on top of two targets; both trigger
in sequence and the avoider ends with the color of the second target. -/
theorem c5_sequential_triggers_witness :
    ((getObj ([((1 : EntityID), (1 : ℚ)), (2, 1)].foldl (avoidCheckOne 1 0) sceneC5) 0).sprite.colorR,
     (getObj ([((1 : EntityID), (1 : ℚ)), (2, 1)].foldl (avoidCheckOne 1 0) sceneC5) 0).sprite.colorG,
     (getObj ([((1 : EntityID), (1 : ℚ)), (2, 1)].foldl (avoidCheckOne 1 0) sceneC5) 0).sprite.colorB)
      = ((getObj sceneC5 2).sprite.colorR, (getObj sceneC5 2).sprite.colorG,
         (getObj sceneC5 2).sprite.colorB) :=
  (c5_sequential_triggers 1 sceneC5 0 (1, 1) (2, 1) [] (by decide)
    (by norm_num [DistanceSq, sceneC5, getObj_cons])
    (by norm_num [avoidCheckOne, ResolveCollision, DistanceSq, sceneC5,
      getObj_cons, setObj_cons])
    (by decide)).2.2.2

/-- Claim C6.  Collision resolution negates both velocity components, then
advances the position by the negated velocity times `deltaTime * 1.1`, then
overwrites the avoider's color with the target's color; in the end-to-end
scenario (avoider at the origin with velocity `(1,0)`, target at `(0.5,0)`,
trigger distance 1, `deltaTime = 0.1`) the avoider ends with velocity
`(-1,0)`, position `(-0.11, 0)` and the target's color. -/
theorem c6_collision_resolution (dt : ℚ) (s : Scene) (goId : EntityID)
    (av : EntityID × ℚ)
    (h : DistanceSq (getObj s goId).position (getObj s av.1).position
      < av.2 * av.2) :
    avoidCheckOne dt goId s av = setObj s goId
      { getObj s goId with
        move := ⟨-(getObj s goId).move.velx, -(getObj s goId).move.vely⟩
        position := ⟨(getObj s goId).position.x
                        + -(getObj s goId).move.velx * dt * (11/10),
                     (getObj s goId).position.y
                        + -(getObj s goId).move.vely * dt * (11/10)⟩
        sprite := { (getObj s goId).sprite with
          colorR := (getObj s av.1).sprite.colorR
          colorG := (getObj s av.1).sprite.colorG
          colorB := (getObj s av.1).sprite.colorB } } ∧
    AvoidanceSystem.UpdateSystem avsC6 (1/10) sceneC6
      = [{ hasPosition := true, hasSprite := true, hasMove := true, hasAvoid := true,
           position := ⟨-11/100, 0⟩, sprite := ⟨3/10, 2/5, 1/2, 0, 1⟩,
           move := ⟨-1, 0⟩ },
         { hasPosition := true, hasSprite := true, position := ⟨1/2, 0⟩,
           sprite := ⟨3/10, 2/5, 1/2, 5, 2⟩, avoidThis := some 1 }] := by
  constructor
  · simp only [avoidCheckOne]
    rw [if_pos h]
    rfl
  · norm_num [AvoidanceSystem.UpdateSystem, AvoidanceSystem.avoidPairs, avsC6, sceneC6,
      avoidCheckOne, ResolveCollision, DistanceSq, getObj_cons, setObj_cons,
      List.zip, List.zipWith, List.foldl_cons, List.foldl_nil]

/-- Witness for C6 at the end-to-end scenario store. -/
theorem c6_collision_resolution_witness :
    DistanceSq (getObj sceneC6 0).position (getObj sceneC6 1).position < 1 * 1 ∧
    avoidCheckOne (1/10) 0 sceneC6 ((1 : EntityID), (1 : ℚ)) = setObj sceneC6 0
      { getObj sceneC6 0 with
        move := ⟨-(getObj sceneC6 0).move.velx, -(getObj sceneC6 0).move.vely⟩
        position := ⟨(getObj sceneC6 0).position.x
                        + -(getObj sceneC6 0).move.velx * (1/10) * (11/10),
                     (getObj sceneC6 0).position.y
                        + -(getObj sceneC6 0).move.vely * (1/10) * (11/10)⟩
        sprite := { (getObj sceneC6 0).sprite with
          colorR := (getObj sceneC6 1).sprite.colorR
          colorG := (getObj sceneC6 1).sprite.colorG
          colorB := (getObj sceneC6 1).sprite.colorB } } :=
  ⟨by norm_num [DistanceSq, sceneC6, getObj_cons],
   (c6_collision_resolution (1/10) sceneC6 0 (1, 1)
     (by norm_num [DistanceSq, sceneC6, getObj_cons])).1⟩

/-- Claim C7.  One Move System update reflects each axis at most once: under
well-formed bounds, whenever the unclamped position crosses a bound (however
far past it, including beyond the opposite bound), the result is that single
bound with exactly one sign flip of that axis's velocity; and the resulting
per-axis velocity is always the input or its negation, never anything else. -/
theorem c7_single_reflection_per_axis (bounds : WorldBoundsComponent) (dt : ℚ)
    (go : GameObject) (hx : bounds.xMin ≤ bounds.xMax)
    (hy : bounds.yMin ≤ bounds.yMax) :
    ((go.position.x + go.move.velx * dt < bounds.xMin →
        (moveObject bounds dt go).position.x = bounds.xMin ∧
        (moveObject bounds dt go).move.velx = -go.move.velx) ∧
     (go.position.x + go.move.velx * dt > bounds.xMax →
        (moveObject bounds dt go).position.x = bounds.xMax ∧
        (moveObject bounds dt go).move.velx = -go.move.velx) ∧
     (go.position.y + go.move.vely * dt < bounds.yMin →
        (moveObject bounds dt go).position.y = bounds.yMin ∧
        (moveObject bounds dt go).move.vely = -go.move.vely) ∧
     (go.position.y + go.move.vely * dt > bounds.yMax →
        (moveObject bounds dt go).position.y = bounds.yMax ∧
        (moveObject bounds dt go).move.vely = -go.move.vely)) ∧
    ((moveObject bounds dt go).move.velx = go.move.velx ∨
      (moveObject bounds dt go).move.velx = -go.move.velx) ∧
    ((moveObject bounds dt go).move.vely = go.move.vely ∨
      (moveObject bounds dt go).move.vely = -go.move.vely) := by
  refine ⟨⟨?_, ?_, ?_, ?_⟩, ?_, ?_⟩ <;>
    (try intro h) <;>
    simp only [moveObject] <;>
    split_ifs <;>
    first
      | exact ⟨rfl, rfl⟩
      | exact Or.inl rfl
      | exact Or.inr rfl
      | (exfalso; linarith)

/-- Witness for C7: from `x = 79` with velocity `-1000` the unclamped step
lands at `-921`, far beyond the opposite bound, yet the result is a single
clamp to `xMin = -80` with one sign flip. -/
theorem c7_single_reflection_per_axis_witness :
    initialBounds.xMin ≤ initialBounds.xMax ∧
    initialBounds.yMin ≤ initialBounds.yMax ∧
    goC7.position.x + goC7.move.velx * 1 < initialBounds.xMin ∧
    (moveObject initialBounds 1 goC7).position.x = initialBounds.xMin ∧
    (moveObject initialBounds 1 goC7).move.velx = -goC7.move.velx := by
  have h := (c7_single_reflection_per_axis initialBounds 1 goC7
    (by norm_num [initialBounds]) (by norm_num [initialBounds])).1.1
    (by norm_num [goC7, initialBounds])
  exact ⟨by norm_num [initialBounds], by norm_num [initialBounds],
    by norm_num [goC7, initialBounds], h.1, h.2⟩

/-- Claim C8.  One Avoidance System update can change only avoider entities:
registered avoid-targets (disjoint from the avoiders, as the driver registers
them) are never modified, any entity outside the avoider list is never
modified, and even on avoiders the sprite atlas index and scale are left
unchanged. -/
theorem c8_avoidance_mutation_scope (sys : AvoidanceSystem) (dt : ℚ) (s : Scene)
    (hdisj : ∀ id ∈ sys.avoidList, id ∉ sys.objectList) :
    (∀ id ∈ sys.avoidList, getObj (sys.UpdateSystem dt s) id = getObj s id) ∧
    (∀ id, id ∉ sys.objectList → getObj (sys.UpdateSystem dt s) id = getObj s id) ∧
    (∀ id, (getObj (sys.UpdateSystem dt s) id).sprite.spriteIndex
          = (getObj s id).sprite.spriteIndex ∧
        (getObj (sys.UpdateSystem dt s) id).sprite.scale
          = (getObj s id).sprite.scale) := by
  refine ⟨fun id hid => avoidUpdate_not_avoider sys dt s id (hdisj id hid),
    fun id hid => avoidUpdate_not_avoider sys dt s id hid, fun id => ?_⟩
  have h := (sceneShape_avoidUpdate sys dt s).2 id
  exact ⟨congrArg (fun t => t.2.2.2.2.2.2.1) h,
    congrArg (fun t => t.2.2.2.2.2.2.2.1) h⟩

/-- Witness for C8: in the end-to-end scenario store the avoid-target
entity 1 is bit-for-bit unchanged by the avoidance update. -/
theorem c8_avoidance_mutation_scope_witness :
    (∀ id ∈ avsC6.avoidList, id ∉ avsC6.objectList) ∧
    getObj (AvoidanceSystem.UpdateSystem avsC6 (1/10) sceneC6) 1 = getObj sceneC6 1 :=
  ⟨by decide,
   (c8_avoidance_mutation_scope avsC6 (1/10) sceneC6 (by decide)).1 1 (by decide)⟩

/-- Claim C9.  With a buffer at least as large as the store, `game_update`
returns a count bounded by the capacity, writes exactly that many records
contiguously from index 0 (the render list of the updated scene), and leaves
every buffer slot from the count up to the capacity untouched (the result
keeps the buffer's length). -/
theorem c9_output_buffer_safety (st : GameState) (dt : ℚ)
    (buf : List sprite_data_t) (hcap : st.objects.length ≤ buf.length) :
    (game_update st dt buf).1 ≤ buf.length ∧
    (game_update st dt buf).1 = (renderList (updatedScene st dt)).length ∧
    (game_update st dt buf).2
      = renderList (updatedScene st dt) ++ buf.drop (game_update st dt buf).1 ∧
    (game_update st dt buf).2.length = buf.length := by
  have hlen : (updatedScene st dt).length = st.objects.length :=
    (sceneShape_updatedScene st dt).1
  have hcount : (renderList (updatedScene st dt)).length ≤ buf.length := by
    rw [length_renderList]
    exact le_trans (le_trans (List.countP_le_length _) (le_of_eq hlen)) hcap
  have hfst : (game_update st dt buf).1
      = (renderList (updatedScene st dt)).length := by
    rw [game_update, emitObjects_eq, length_renderList]
  refine ⟨by rw [hfst]; exact hcount, hfst, ?_, ?_⟩
  · rw [hfst, game_update, emitObjects_eq]
    have := writeList_eq (renderList (updatedScene st dt)) 0 buf (by omega)
    rw [this]
    simp
  · rw [game_update, emitObjects_eq]
    exact length_writeList ..

/-- Witness for C9 on a concrete three-entity store and capacity-3 buffer. -/
theorem c9_output_buffer_safety_witness :
    stateC3.objects.length ≤ bufC3.length ∧
    (game_update stateC3 1 bufC3).1 ≤ bufC3.length :=
  ⟨by decide, (c9_output_buffer_safety stateC3 1 bufC3 (by decide)).1⟩

/-- Claim C10.  Every velocity mutation of a frame is a pure per-component
negation, so across any number of `game_update` frames each entity's per-axis
speed (`|velx|` and `|vely|` separately) is exactly preserved. -/
theorem c10_per_axis_speed_invariant (st : GameState) (dt : ℚ) (n : Nat)
    (id : EntityID) :
    |(getObj (frames st dt n).objects id).move.velx|
        = |(getObj st.objects id).move.velx| ∧
    |(getObj (frames st dt n).objects id).move.vely|
        = |(getObj st.objects id).move.vely| := by
  have h := (absVel_frames st dt n).2 id
  exact ⟨congrArg Prod.fst h, congrArg Prod.snd h⟩

end Dod
